import Mathlib

/-!
Verification of the sunflower-backend service against its specification.

The repository is a Flask backend: user registration/login
(`routes/userRoutes.py`), a DenseNet121-based sunflower-disease classifier
with a defensive multi-strategy model loader (`trainedmodels/sunflowerModel.py`),
image upload to Cloudinary (`utils/cloudinary_client.py`), and persistence of
analysis history (`models/database.py`).

This file gives a shallow embedding of the relevant parts of that code and
proves (or refutes) the specification's claims about them.  External
collaborators (the Keras runtime, the file system, Cloudinary, the database)
are modelled by explicit outcome environments / state records; the control
flow of each embedded function is a direct translation of the Python source.
-/

namespace Sunflower

/-! ## Configuration constants (`trainedmodels/sunflowerModel.py`, lines 27-29) -/

def IMG_HEIGHT : Nat := 512
def IMG_WIDTH : Nat := 512

def CLASS_LABELS : List String := ["DownyMildew", "Fresh Leaf", "GrayMold", "Leaf scars"]

/-! ## Model loader (`load_model_with_fallback` and its strategies)

The loader calls into the Keras runtime; whether each runtime operation
succeeds is not decided by the code under verification, so it is supplied by
an explicit environment `RuntimeEnv`.  The value produced by each strategy is
represented by the constructor of `LoadedModel` recording which strategy
built it (and, for the weights-only reconstruction, whether the weight
tensors were actually loaded or the architecture kept random weights).
-/

/-- A classifier instance, tagged by the loading strategy that produced it. -/
inductive LoadedModel where
  | directLoad
  | denseNet121Reconstruction (weightsLoaded : Bool)
  | sanitizedLoad
  | loadWithoutCompile
  | fallbackCNN
deriving DecidableEq

/-- Outcomes of the external (Keras / file-system) operations the loader
performs.  `directLoadOk` is `load_model(MODEL_PATH)` succeeding;
`denseNetBuildOk` is the DenseNet121 architecture reconstruction (plus
compile) succeeding; `weightsLoadOk` is `model.load_weights(..., by_name=True,
skip_mismatch=True)` succeeding; `sanitizedLoadOk` is the whole
sanitize-then-load of the temporary copy succeeding; `loadNoCompileOk` is
`load_model(MODEL_PATH, compile=False)` (plus recompile) succeeding. -/
structure RuntimeEnv where
  directLoadOk : Bool
  denseNetBuildOk : Bool
  weightsLoadOk : Bool
  sanitizedLoadOk : Bool
  loadNoCompileOk : Bool
deriving DecidableEq

/-- `load_model_with_weights_only` (sunflowerModel.py, lines 150-199).
Rebuilds the DenseNet121 architecture; the inner `try` around
`model.load_weights` absorbs a weight-loading failure, so the function
returns a model whenever the architecture reconstruction succeeds, whether
or not the weights loaded; the outer `except` returns `None` otherwise. -/
def load_model_with_weights_only (env : RuntimeEnv) : Option LoadedModel :=
  if env.denseNetBuildOk then some (.denseNet121Reconstruction env.weightsLoadOk) else none

/-- `load_model_with_advanced_sanitization` (lines 56-148), viewed only
through its result: `Some model` on success, `None` when any step raised
(the outer `except` catches everything).  The file-system effects of this
strategy are modelled separately below for the frame claim. -/
def load_model_with_advanced_sanitization (env : RuntimeEnv) : Option LoadedModel :=
  if env.sanitizedLoadOk then some .sanitizedLoad else none

/-- The five fallback strategies, in the order the source tries them. -/
inductive Strategy where
  | directLoad
  | weightsOnly
  | sanitization
  | noCompile
  | lastResortCNN
deriving DecidableEq

/-- `load_model(MODEL_PATH)` — method 1; raises on failure (modelled by
`Except.error`), caught by the `try/except` in `load_model_with_fallback`. -/
def directLoadAttempt (env : RuntimeEnv) : Except String LoadedModel :=
  if env.directLoadOk then .ok .directLoad else .error "Direct loading failed"

/-- `load_model(MODEL_PATH, compile=False)` plus recompile — method 4. -/
def loadNoCompileAttempt (env : RuntimeEnv) : Except String LoadedModel :=
  if env.loadNoCompileOk then .ok .loadWithoutCompile
  else .error "Loading without compilation failed"

/-- `load_model_with_fallback` (lines 201-276).  Direct translation of the
control flow: each strategy is attempted in source order inside a
`try/except` (or returns `Option`), and the first success is returned;
the final branch builds the fallback CNN from scratch (no external data,
cannot fail).  The second component records, for analysis, which strategies
were attempted, in order, mirroring the control flow one-to-one. -/
def load_model_with_fallback (env : RuntimeEnv) :
    Except String LoadedModel × List Strategy :=
  match directLoadAttempt env with
  | .ok m => (.ok m, [.directLoad])
  | .error _ =>
    match load_model_with_weights_only env with
    | some m => (.ok m, [.directLoad, .weightsOnly])
    | none =>
      match load_model_with_advanced_sanitization env with
      | some m => (.ok m, [.directLoad, .weightsOnly, .sanitization])
      | none =>
        match loadNoCompileAttempt env with
        | .ok m => (.ok m, [.directLoad, .weightsOnly, .sanitization, .noCompile])
        | .error _ =>
          (.ok .fallbackCNN,
           [.directLoad, .weightsOnly, .sanitization, .noCompile, .lastResortCNN])

/-! Specification-side view of the chain (from spec §4.2): an ordered list of
strategies, each an independent `artifact -> classifier | failure` function;
the loader must return the first success and attempt nothing after it. -/

/-- The spec's strategy order (spec §4.2, steps 1-5). -/
def specStrategyOrder : List Strategy :=
  [.directLoad, .weightsOnly, .sanitization, .noCompile, .lastResortCNN]

/-- The result of each individual strategy in environment `env`
(spec-side: each strategy as a pure function `artifact -> classifier | failure`;
the last-resort strategy requires no external data and always succeeds). -/
def strategyResult (env : RuntimeEnv) : Strategy → Option LoadedModel
  | .directLoad => (directLoadAttempt env).toOption
  | .weightsOnly => load_model_with_weights_only env
  | .sanitization => load_model_with_advanced_sanitization env
  | .noCompile => (loadNoCompileAttempt env).toOption
  | .lastResortCNN => some .fallbackCNN

/-- First success of the chain, spec-side. -/
def firstSuccess (env : RuntimeEnv) : Option LoadedModel :=
  (specStrategyOrder.filterMap (strategyResult env)).head?

/-- The strategies the spec allows to be attempted: every strategy up to and
including the first one that succeeds, and none after it. -/
def attemptedUpToFirstSuccess (env : RuntimeEnv) : List Strategy :=
  specStrategyOrder.take
    ((specStrategyOrder.takeWhile (fun s => (strategyResult env s).isNone)).length + 1)

/-! ## File-system model of the structural-sanitization strategy (lines 56-148)

`load_model_with_advanced_sanitization` creates a temporary `.h5` file,
copies the original artifact into it, rewrites illegal names *in the
temporary copy only* (`h5py.File(temp_path, 'r+')`), tries to load the
sanitized copy, and removes the temporary file in a `finally` block; the
outer `except` turns any raised exception into a `None` result.  The
file-system is modelled as the original artifact's bytes plus the temporary
file's content (if it exists); each Python step is one state transformer,
and the exception point of a run selects how far the straight-line body got
before the `finally`/`except` took over. -/

/-- The two files the strategy touches: the original artifact at
`MODEL_PATH` and the temporary copy (absent when `temp = none`). -/
structure SanitizeFS where
  original : List Nat
  temp : Option (List Nat)
deriving DecidableEq

/-- The structural rewrite the strategy applies to the artifact's bytes
(illegal name characters are normalized).  Only its target matters for the
frame claim: it is applied exclusively to the temporary copy. -/
def sanitizeBytes (bs : List Nat) : List Nat :=
  bs.map (fun b => if b = 47 then 95 else b)

/-- `tempfile.NamedTemporaryFile(suffix='.h5', delete=False)` — creates the
temporary file (fresh, empty). -/
def createTemp (fs : SanitizeFS) : SanitizeFS := { fs with temp := some [] }

/-- `shutil.copy2(MODEL_PATH, temp_path)` — reads the original, writes the
temporary copy. -/
def copyOriginalToTemp (fs : SanitizeFS) : SanitizeFS :=
  { fs with temp := some fs.original }

/-- The `h5py.File(temp_path, 'r+')` block — all attribute/group rewriting
mutates the temporary copy only. -/
def mutateTemp (fs : SanitizeFS) : SanitizeFS :=
  { fs with temp := fs.temp.map sanitizeBytes }

/-- The `finally` block: `if os.path.exists(temp_path): os.unlink(temp_path)`. -/
def removeTempIfExists (fs : SanitizeFS) : SanitizeFS := { fs with temp := none }

/-- Where (if anywhere) the strategy's body raises. -/
inductive SanitizeRun where
  | importFails
  | copyFails
  | sanitizeFails
  | loadFails
  | compileFails
  | success
deriving DecidableEq

/-- The file-system effect of one execution of
`load_model_with_advanced_sanitization`, following the source's control flow
for each exception point: the `import`s precede the temp-file creation; the
inner `try` body runs copy → sanitize → load → compile; the `finally`
removes the temp file on every exit of the inner block; the outer `except`
returns `None`. -/
def sanitizationStrategyRun (fs : SanitizeFS) (run : SanitizeRun) :
    SanitizeFS × Option LoadedModel :=
  match run with
  | .importFails =>
      -- `import h5py` (or tempfile/shutil/json) raised: no temp file was
      -- ever created; outer except returns None.
      (fs, none)
  | .copyFails =>
      -- temp created, `shutil.copy2` raised before writing; finally removes
      -- the temp file; outer except returns None.
      (removeTempIfExists (createTemp fs), none)
  | .sanitizeFails =>
      -- copy succeeded, the h5py rewrite raised (possibly mid-mutation of
      -- the temporary copy); finally + outer except.
      (removeTempIfExists (mutateTemp (copyOriginalToTemp (createTemp fs))), none)
  | .loadFails =>
      -- `load_model(temp_path, compile=False)` raised; finally + outer except.
      (removeTempIfExists (mutateTemp (copyOriginalToTemp (createTemp fs))), none)
  | .compileFails =>
      -- `model.compile(...)` raised; finally + outer except.
      (removeTempIfExists (mutateTemp (copyOriginalToTemp (createTemp fs))), none)
  | .success =>
      -- full body ran; the model is returned after the finally runs.
      (removeTempIfExists (mutateTemp (copyOriginalToTemp (createTemp fs))),
       some .sanitizedLoad)

/-! ## Inference (`predict_disease`, lines 311-338)

The forward pass's output `predictions[0]` is a probability vector indexed
like `CLASS_LABELS`; it is supplied as a list of rationals.  `np.argmax`
returns the first index attaining the maximum. -/

/-- Maximum of a list of rationals (value of `np.max` on a nonempty vector). -/
def maxList : List ℚ → ℚ
  | [] => 0
  | [x] => x
  | x :: y :: t => max x (maxList (y :: t))

/-- `np.argmax`: the first index attaining the maximum. -/
def npArgmax : List ℚ → Nat
  | [] => 0
  | [_] => 0
  | x :: y :: t => if maxList (y :: t) ≤ x then 0 else npArgmax (y :: t) + 1

/-- The value object returned by `predict_disease`. -/
structure PredictionResult where
  predicted_class : String
  confidence : ℚ
  all_predictions : List (String × ℚ)
deriving DecidableEq

/-- `predict_disease` (lines 311-338), given the forward-pass output
`probs = predictions[0]`: arg-max index, label at that index, that class's
probability as confidence, and the full distribution as the association list
built by `for i, label in enumerate(CLASS_LABELS): all_predictions[label] =
predictions[0][i]`. -/
def predict_disease (probs : List ℚ) : PredictionResult :=
  let predicted_class_idx := npArgmax probs
  { predicted_class := CLASS_LABELS.getD predicted_class_idx ""
    confidence := probs.getD predicted_class_idx 0
    all_predictions := CLASS_LABELS.zip probs }

/-! ## Image preprocessing (`preprocess_image`, lines 289-309) -/

/-- PIL image modes relevant to the service (RGB plus common non-RGB modes). -/
inductive ImageMode where
  | RGB
  | L
  | RGBA
  | P
  | CMYK
deriving DecidableEq

/-- Number of channels a mode carries. -/
def ImageMode.numChannels : ImageMode → Nat
  | .RGB => 3
  | .L => 1
  | .RGBA => 4
  | .P => 1
  | .CMYK => 4

/-- A decoded PIL image: dimensions, color mode, and per-channel byte data
(channel indices at or beyond `mode.numChannels` are unused). -/
structure PILImage where
  width : Nat
  height : Nat
  mode : ImageMode
  pixel : Nat → Nat → Nat → Fin 256

/-- `img.resize((IMG_WIDTH, IMG_HEIGHT))`: fixed output dimensions; the
resampling kernel is abstracted as nearest-neighbour (the claim depends only
on the dimensions and the byte range, which any PIL resampling preserves
for byte images). -/
def PILImage.resize (img : PILImage) (w h : Nat) : PILImage :=
  { img with
    width := w
    height := h
    pixel := fun x y c => img.pixel (x * img.width / w) (y * img.height / h) c }

/-- `img.convert('RGB')`: the result has mode RGB and 3 channels; the exact
per-mode channel arithmetic (luma weights, palette lookup, alpha drop) is
abstracted as a channel selection, which is faithful to the byte range. -/
def PILImage.convertRGB (img : PILImage) : PILImage :=
  { img with
    mode := ImageMode.RGB
    pixel := fun x y c => img.pixel x y (min c (img.mode.numChannels - 1)) }

/-- The float tensor `np.expand_dims(np.array(img).astype('float32')/255.0, 0)`. -/
structure Tensor where
  batch : Nat
  height : Nat
  width : Nat
  channels : Nat
  value : Nat → Nat → Nat → ℚ

/-- The image `preprocess_image` scales: resized to 512x512, then converted
to RGB when the mode is not already RGB (lines 293-298). -/
def preprocessRGBStage (img : PILImage) : PILImage :=
  let resized := img.resize IMG_WIDTH IMG_HEIGHT
  if resized.mode = ImageMode.RGB then resized else resized.convertRGB

/-- `preprocess_image` (lines 289-309): resize to 512x512, convert to RGB if
the mode is not already RGB, turn into an array, scale by 1/255, and add the
batch dimension. -/
def preprocess_image (img : PILImage) : Tensor :=
  let rgb := preprocessRGBStage img
  { batch := 1
    height := rgb.height
    width := rgb.width
    channels := rgb.mode.numChannels
    value := fun y x c => ((rgb.pixel x y c : Nat) : ℚ) / 255 }

/-! ## Persistence model (`models/database.py`, `SunflowerAnalysis`)

A `SunflowerAnalysis` row, with the columns the claims depend on; the
database is a list of rows. -/

structure SunflowerAnalysis where
  id : Nat
  user_id : Nat
  predicted_class : String
  confidence : ℚ
  original_image_url : Option String
  created_at : Nat
deriving DecidableEq

/-! ## History listing (`get_prediction_history`, lines 493-539)

The query is `filter_by(user_id=...)` then `order_by(created_at.desc())`
then `paginate(page=page, per_page=per_page, error_out=False)`.  The
descending order is modelled by sorting with `createdDesc`; Flask-SQLAlchemy
pagination computes `pages = ceil(total / per_page)`, `has_next = page <
pages`, `has_prev = page > 1`, and the item slice
`[(page-1)*per_page, page*per_page)`. -/

/-- `created_at` descending — the query's order relation. -/
def createdDesc (a b : SunflowerAnalysis) : Prop := b.created_at ≤ a.created_at

instance : DecidableRel createdDesc := fun a b => Nat.decLe b.created_at a.created_at

instance : IsTotal SunflowerAnalysis createdDesc :=
  ⟨fun a b => Nat.le_total b.created_at a.created_at⟩

instance : IsTrans SunflowerAnalysis createdDesc :=
  ⟨fun _ _ _ hab hbc => Nat.le_trans hbc hab⟩

/-- The JSON `pagination` object plus the page of records returned. -/
structure HistoryResponse where
  items : List SunflowerAnalysis
  page : Nat
  per_page : Nat
  total : Nat
  pages : Nat
  has_next : Bool
  has_prev : Bool
deriving DecidableEq

/-- `get_prediction_history` (lines 493-539) for an authenticated user
`uid`, with positive `page`/`per_page` query parameters:
`per_page = min(per_page, 50)`, the user's rows ordered by `created_at`
descending, paginated with Flask-SQLAlchemy semantics. -/
def get_prediction_history (db : List SunflowerAnalysis) (uid page per_page : Nat) :
    HistoryResponse :=
  let per_page := min per_page 50
  let userRecs := List.insertionSort createdDesc (db.filter (fun a => a.user_id = uid))
  let total := userRecs.length
  let pages := (total + per_page - 1) / per_page
  { items := (userRecs.drop ((page - 1) * per_page)).take per_page
    page := page
    per_page := per_page
    total := total
    pages := pages
    has_next := page < pages
    has_prev := 1 < page }

/-! ## Single-analysis endpoint (`get_single_analysis`, lines 541-575) -/

/-- Outcome of a JSON endpoint: a payload or an error status + message. -/
inductive ApiResult (α : Type) where
  | ok (value : α)
  | err (status : Nat) (message : String)
deriving DecidableEq

/-- `get_single_analysis` (lines 541-575) for an authenticated user `uid`:
`SunflowerAnalysis.query.filter_by(id=analysis_id, user_id=current_user_id)
.first()`, returning 404 when no such row exists. -/
def get_single_analysis (db : List SunflowerAnalysis) (uid analysis_id : Nat) :
    ApiResult SunflowerAnalysis :=
  match db.find? (fun a => a.id = analysis_id && a.user_id = uid) with
  | some analysis => .ok analysis
  | none => .err 404 "Analysis not found or access denied"

/-! ## Registration and login (`routes/userRoutes.py`)

Strings are modelled as lists of character code points, so that Python's
`str.strip`/`str.lower` become explicit functions (`str.lower` is modelled
on the ASCII letters, which is exact for ASCII strings).  `bcrypt` password
hashing is abstracted: `set_password` stores the password's (injective)
hash, modelled by the password itself, and `check_password` compares. -/

/-- Character code points of a Python string. -/
abbrev PyStr := List Nat

/-- The ASCII whitespace characters `str.strip()` removes
(space, tab, LF, CR, VT, FF). -/
def isPySpace (b : Nat) : Bool :=
  decide (b = 32 ∨ b = 9 ∨ b = 10 ∨ b = 13 ∨ b = 11 ∨ b = 12)

/-- `str.strip()`: remove leading and trailing whitespace. -/
def pyStrip (s : PyStr) : PyStr :=
  ((s.dropWhile isPySpace).reverse.dropWhile isPySpace).reverse

/-- `str.lower()` on one character (ASCII letters). -/
def pyLowerChar (b : Nat) : Nat := if 65 ≤ b ∧ b ≤ 90 then b + 32 else b

/-- `str.lower()`. -/
def pyLower (s : PyStr) : PyStr := s.map pyLowerChar

/-- A row of the `users` table (columns the claims depend on). -/
structure UserRow where
  id : Nat
  username : PyStr
  email : PyStr
  password_hash : PyStr
  age : Int
deriving DecidableEq

/-- `check_password` (database.py, lines 27-29): the stored hash matches the
submitted password (hashing modelled as injective). -/
def UserRow.check_password (u : UserRow) (password : PyStr) : Bool :=
  u.password_hash == password

/-- Python truthiness of the `age` field inside `all([...])`. -/
def ageTruthy : Option Int → Bool
  | none => false
  | some a => a != 0

/-- Outcome of the register endpoint. -/
inductive RegisterOutcome where
  | created (user : UserRow)
  | err (status : Nat) (message : String)
deriving DecidableEq

/-- `register` (userRoutes.py, lines 16-82): strip the username, strip and
lowercase the email, validate presence and password length, reject duplicate
email then duplicate username, then insert the new row (with the normalized
email) and commit.  `nextId` models the autoincrement primary key. -/
def register (db : List UserRow) (nextId : Nat)
    (username email password : PyStr) (age : Option Int) :
    List UserRow × RegisterOutcome :=
  let username := pyStrip username
  let email := pyLower (pyStrip email)
  if username = [] ∨ email = [] ∨ password = [] ∨ ageTruthy age = false then
    (db, .err 400 "All fields are required")
  else if password.length < 6 then
    (db, .err 400 "Password must be at least 6 characters")
  else if (db.find? (fun u => u.email == email)).isSome then
    (db, .err 400 "Email already exists")
  else if (db.find? (fun u => u.username == username)).isSome then
    (db, .err 400 "Username already exists")
  else
    let new_user : UserRow :=
      { id := nextId
        username := username
        email := email
        password_hash := password
        age := age.getD 0 }
    (db ++ [new_user], .created new_user)

/-- Outcome of the login endpoint. -/
inductive LoginOutcome where
  | success (user : UserRow)
  | err (status : Nat) (message : String)
deriving DecidableEq

/-- `login` (userRoutes.py, lines 85-131): strip and lowercase the email,
validate presence, look the user up by the normalized email, check the
password. -/
def login (db : List UserRow) (email password : PyStr) : LoginOutcome :=
  let email := pyLower (pyStrip email)
  if email = [] ∨ password = [] then
    .err 400 "Email and password are required"
  else
    match db.find? (fun u => u.email == email) with
    | none => .err 401 "Invalid email or password"
    | some user =>
      if user.check_password password then .success user
      else .err 401 "Invalid email or password"

/-! ## The predict endpoint (`predict`, lines 341-416)

External outcomes: whether the Cloudinary upload succeeds (the Cloudinary
client catches its own exceptions and returns `None` on failure,
cloudinary_client.py lines 106-108), and whether the model's forward pass
succeeds (a raised inference error propagates to the endpoint's `except`,
which returns a 500 without committing). -/

/-- External outcomes of one predict request, plus the forward-pass output
used when inference succeeds. -/
structure PredictEnv where
  uploadOk : Bool
  uploadUrl : String
  inferOk : Bool
  probs : List ℚ

/-- `CloudinaryClient.upload_image` (cloudinary_client.py, lines 26-108):
returns the upload result, or `None` when anything raised (the `except`
swallows the error). -/
def upload_image (env : PredictEnv) : Option String :=
  if env.uploadOk then some env.uploadUrl else none

/-- `upload_sunflower_analysis_image` (cloudinary_client.py, lines 111-136):
`{'original_image_url': original_result['url'] if original_result else None}`. -/
def upload_sunflower_analysis_image (env : PredictEnv) : Option String :=
  match upload_image env with
  | some url => some url
  | none => none

/-- The `predict` endpoint (sunflowerModel.py, lines 341-416) after
authentication and file validation: upload to Cloudinary, run inference,
build the `SunflowerAnalysis` row, `db.session.add` + `commit`.  Returns the
database after the request and the HTTP status.  When the forward pass
raises, the outer `except` returns 500 and nothing is committed; an upload
failure produces `cloudinary_result['original_image_url'] = None` and the
flow continues. -/
def predictEndpoint (env : PredictEnv) (db : List SunflowerAnalysis)
    (uid nextId timestamp : Nat) : List SunflowerAnalysis × Nat :=
  let cloudinary_url := upload_sunflower_analysis_image env
  if env.inferOk then
    let result := predict_disease env.probs
    let analysis : SunflowerAnalysis :=
      { id := nextId
        user_id := uid
        predicted_class := result.predicted_class
        confidence := result.confidence
        original_image_url := cloudinary_url
        created_at := timestamp }
    (db ++ [analysis], 200)
  else
    (db, 500)

/-! ## Lazy model initialization (`get_model`, lines 278-287)

```
global _model
if _model is None:
    _model = load_model_with_fallback()
return _model
```

There is no lock around this check-then-act, so its behavior under
concurrent first calls is modelled by an interleaving semantics: the shared
state is the `_model` global (plus a counter of executed load sequences and
a supply of fresh instance identities), and each caller is a small program
whose atomic steps are the individual reads/writes of the global. -/

/-- The process-wide state shared by callers of `get_model`. -/
structure GetModelState where
  cached : Option Nat
  loads : Nat
  nextInstanceId : Nat
deriving DecidableEq

/-- Program counter of one caller executing `get_model`:
`check` is about to evaluate `_model is None`; `runLoad` is about to execute
`load_model_with_fallback()`; `storeGlobal v` is about to assign the freshly
loaded instance `v` to `_model`; `readReturn` is about to evaluate
`return _model` (a fresh read of the global); `ret m` has returned `m`. -/
inductive CallerPC where
  | check
  | runLoad
  | storeGlobal (v : Nat)
  | readReturn
  | ret (m : Nat)
deriving DecidableEq

/-- One atomic step of a single caller of `get_model`. -/
def getModelStep (s : GetModelState) : CallerPC → GetModelState × CallerPC
  | .check =>
      match s.cached with
      | some _ => (s, .readReturn)
      | none => (s, .runLoad)
  | .runLoad =>
      ({ s with loads := s.loads + 1, nextInstanceId := s.nextInstanceId + 1 },
       .storeGlobal s.nextInstanceId)
  | .storeGlobal v => ({ s with cached := some v }, .readReturn)
  | .readReturn => (s, .ret (s.cached.getD 0))
  | .ret m => (s, .ret m)

/-- Two concurrent callers: shared state plus both program counters. -/
structure TwoCallers where
  shared : GetModelState
  pc0 : CallerPC
  pc1 : CallerPC
deriving DecidableEq

/-- One step of the two-caller system; the schedule bit picks which caller
executes its next atomic step. -/
def twoCallersStep (st : TwoCallers) (who : Bool) : TwoCallers :=
  if who then
    let (s, pc) := getModelStep st.shared st.pc1
    { st with shared := s, pc1 := pc }
  else
    let (s, pc) := getModelStep st.shared st.pc0
    { st with shared := s, pc0 := pc }

/-- Run of the two-caller system from the uninitialized state
(`_model = None`, no load executed yet) under a schedule. -/
def twoCallersRun (schedule : List Bool) : TwoCallers :=
  schedule.foldl twoCallersStep
    { shared := { cached := none, loads := 0, nextInstanceId := 0 }
      pc0 := .check
      pc1 := .check }

/-! ## Statement abbreviations

Properties used both in a claim's theorem and in its witness instance. -/

/-- The claimed contract of `predict_disease` on a forward-pass output:
label from the fixed closed set; confidence equal to the maximum of the
distribution (it is by construction the probability of the arg-max class);
the distribution's entry for the predicted label equals the confidence; and
the distribution carries an entry for every label in the fixed set. -/
def PredictDiseaseSpec (probs : List ℚ) : Prop :=
  (predict_disease probs).predicted_class ∈ CLASS_LABELS ∧
  (predict_disease probs).confidence ∈ probs ∧
  (∀ x ∈ probs, x ≤ (predict_disease probs).confidence) ∧
  List.lookup (predict_disease probs).predicted_class
      (predict_disease probs).all_predictions
    = some (predict_disease probs).confidence ∧
  (∀ lab ∈ CLASS_LABELS, ∃ p, (lab, p) ∈ (predict_disease probs).all_predictions)

/-- The claimed contract of one history-list request: effective page size at
most 50 (100 is clamped to 50), records ordered by creation time descending,
`has_prev` iff `page > 1`, `has_next` iff records exist beyond this page. -/
def HistorySpec (db : List SunflowerAnalysis) (uid page per_page : Nat) : Prop :=
  (get_prediction_history db uid page per_page).per_page ≤ 50 ∧
  (per_page = 100 → (get_prediction_history db uid page per_page).per_page = 50) ∧
  List.Sorted createdDesc (get_prediction_history db uid page per_page).items ∧
  ((get_prediction_history db uid page per_page).has_prev = true ↔ 1 < page) ∧
  ((get_prediction_history db uid page per_page).has_next = true ↔
    page * (get_prediction_history db uid page per_page).per_page
      < (get_prediction_history db uid page per_page).total)

/-! # Theorems -/

/-- C2: for every input artifact state — valid artifact, artifact with
illegal internal layer names, missing or corrupt artifact (every combination
of external-operation outcomes) — `load_model_with_fallback` never raises
(no `Except.error` escapes) and always returns a (non-null) classifier
instance. -/
theorem C2_loader_never_fails (env : RuntimeEnv) :
    ∃ m : LoadedModel, (load_model_with_fallback env).1 = Except.ok m := by
  obtain ⟨d, b, w, s, n⟩ := env
  cases d <;> cases b <;> cases w <;> cases s <;> cases n <;> exact ⟨_, rfl⟩

/-- C4: the loader attempts its strategies in exactly the spec's order
(direct load, weights-only DenseNet121 reconstruction, structural
sanitization, load ignoring the saved training configuration, last-resort
fresh classifier), returns the result of the first strategy that succeeds,
attempts exactly the strategies up to and including that first success (and
none after it), and the weights-only strategy counts a failed weight loading
as success (returning the reconstructed architecture with random weights). -/
theorem C4_fallback_chain_follows_spec_order (env : RuntimeEnv) :
    (load_model_with_fallback env).1 = Except.ok ((firstSuccess env).getD .fallbackCNN) ∧
    (firstSuccess env).isSome = true ∧
    (load_model_with_fallback env).2 = attemptedUpToFirstSuccess env ∧
    load_model_with_weights_only
        ⟨env.directLoadOk, true, false, env.sanitizedLoadOk, env.loadNoCompileOk⟩
      = some (.denseNet121Reconstruction false) := by
  obtain ⟨d, b, w, s, n⟩ := env
  cases d <;> cases b <;> cases w <;> cases s <;> cases n <;>
    exact ⟨rfl, rfl, rfl, rfl⟩

/-- C5: every execution of the structural-sanitization strategy — success,
failure or exception at any step — leaves the original artifact byte-for-byte
unchanged (all mutation happens on the temporary copy) and removes the
temporary copy before returning. -/
theorem C5_sanitization_preserves_original_and_cleans_up
    (fs : SanitizeFS) (run : SanitizeRun) (h : fs.temp = none) :
    (sanitizationStrategyRun fs run).1.original = fs.original ∧
    (sanitizationStrategyRun fs run).1.temp = none := by
  cases run <;>
    simp [sanitizationStrategyRun, removeTempIfExists, mutateTemp,
      copyOriginalToTemp, createTemp, h]

/-- Witness for C5 at a concrete artifact and a run that raises during the
load of the sanitized copy. -/
theorem C5_sanitization_witness :
    (SanitizeFS.mk [104, 53, 47, 106] none).temp = none ∧
    ((sanitizationStrategyRun (SanitizeFS.mk [104, 53, 47, 106] none) .loadFails).1.original
        = [104, 53, 47, 106] ∧
     (sanitizationStrategyRun (SanitizeFS.mk [104, 53, 47, 106] none) .loadFails).1.temp
        = none) :=
  ⟨rfl, C5_sanitization_preserves_original_and_cleans_up _ .loadFails rfl⟩

/-- The maximum of a nonempty list is one of its elements. -/
theorem maxList_mem : ∀ l : List ℚ, l ≠ [] → maxList l ∈ l := by
  intro l
  induction l with
  | nil => intro h; exact absurd rfl h
  | cons x t ih =>
    intro _
    cases t with
    | nil => simp [maxList]
    | cons y t2 =>
      rcases le_total x (maxList (y :: t2)) with h1 | h1
      · have hm : maxList (x :: y :: t2) = maxList (y :: t2) := by
          simp [maxList, max_eq_right h1]
        rw [hm]
        exact List.mem_cons_of_mem _ (ih (by simp))
      · have hm : maxList (x :: y :: t2) = x := by
          simp [maxList, max_eq_left h1]
        rw [hm]
        exact List.mem_cons_self _ _

/-- Every element of a list is bounded by its maximum. -/
theorem le_maxList (x : ℚ) : ∀ l : List ℚ, x ∈ l → x ≤ maxList l := by
  intro l
  induction l with
  | nil => intro hx; simp at hx
  | cons a t ih =>
    intro hx
    cases t with
    | nil =>
      simp at hx
      simp [maxList, hx]
    | cons y t2 =>
      rcases List.mem_cons.mp hx with h | h
      · subst h
        have hm : maxList (x :: y :: t2) = max x (maxList (y :: t2)) := by simp [maxList]
        rw [hm]
        exact le_max_left _ _
      · calc x ≤ maxList (y :: t2) := ih h
          _ ≤ max a (maxList (y :: t2)) := le_max_right _ _
          _ = maxList (a :: y :: t2) := by simp [maxList]

/-- `np.argmax` picks an index whose entry is the maximum. -/
theorem getD_npArgmax : ∀ l : List ℚ, l ≠ [] → l.getD (npArgmax l) 0 = maxList l := by
  intro l
  induction l with
  | nil => intro h; exact absurd rfl h
  | cons x t ih =>
    intro _
    cases t with
    | nil => simp [npArgmax, maxList]
    | cons y t2 =>
      by_cases h1 : maxList (y :: t2) ≤ x
      · simp [npArgmax, maxList, h1, max_eq_left h1]
      · have hlt : x ≤ maxList (y :: t2) := le_of_lt (lt_of_not_le h1)
        simp only [npArgmax, maxList, if_neg h1]
        rw [List.getD_cons_succ]
        rw [ih (by simp)]
        exact (max_eq_right hlt).symm

/-- `np.argmax` returns a valid index of a nonempty vector. -/
theorem npArgmax_lt_length : ∀ l : List ℚ, l ≠ [] → npArgmax l < l.length := by
  intro l
  induction l with
  | nil => intro h; exact absurd rfl h
  | cons x t ih =>
    intro _
    cases t with
    | nil => simp [npArgmax]
    | cons y t2 =>
      by_cases h1 : maxList (y :: t2) ≤ x
      · simp [npArgmax, h1]
      · simp only [npArgmax, if_neg h1, List.length_cons]
        exact Nat.succ_lt_succ (ih (by simp))

/-- C6: for every forward-pass output over the four classes,
`predict_disease` returns a label from the fixed closed set, a confidence
equal to the maximum of the distribution (which is the distribution's entry
for the predicted label), and a distribution carrying an entry for every
label of the fixed set. -/
theorem C6_predict_disease_contract (probs : List ℚ)
    (h : probs.length = CLASS_LABELS.length) : PredictDiseaseSpec probs := by
  match probs, h with
  | [a, b, c, d], _ =>
    have hne : ([a, b, c, d] : List ℚ) ≠ [] := by simp
    have hmax : List.getD [a, b, c, d] (npArgmax [a, b, c, d]) 0 = maxList [a, b, c, d] :=
      getD_npArgmax _ hne
    have hlt : npArgmax [a, b, c, d] < 4 := npArgmax_lt_length _ hne
    have hconf : (predict_disease [a, b, c, d]).confidence = maxList [a, b, c, d] := by
      simp only [predict_disease]
      exact hmax
    refine ⟨?_, ?_, ?_, ?_, ?_⟩
    · -- predicted label is in the closed set
      simp only [predict_disease]
      set i := npArgmax [a, b, c, d] with hi
      interval_cases i <;> simp [CLASS_LABELS]
    · -- confidence is an element of the distribution
      rw [hconf]; exact maxList_mem _ hne
    · -- confidence bounds every entry
      intro x hx
      rw [hconf]; exact le_maxList x _ hx
    · -- the distribution's entry for the predicted label is the confidence
      simp only [predict_disease, CLASS_LABELS]
      set i := npArgmax [a, b, c, d] with hi
      interval_cases i <;> simp [List.lookup]
    · -- every label of the closed set appears in the distribution
      intro lab hlab
      fin_cases hlab
      · exact ⟨a, by simp [predict_disease, CLASS_LABELS]⟩
      · exact ⟨b, by simp [predict_disease, CLASS_LABELS]⟩
      · exact ⟨c, by simp [predict_disease, CLASS_LABELS]⟩
      · exact ⟨d, by simp [predict_disease, CLASS_LABELS]⟩

/-- Witness for C6 at a concrete probability vector. -/
theorem C6_predict_disease_witness :
    ([(1 : ℚ)/10, 2/5, 3/10, 1/5] : List ℚ).length = CLASS_LABELS.length ∧
    PredictDiseaseSpec [(1 : ℚ)/10, 2/5, 3/10, 1/5] :=
  ⟨rfl, C6_predict_disease_contract _ rfl⟩

/-- C7: for every decodable input image of any size and color mode,
`preprocess_image` outputs a tensor of spatial size 512x512 with exactly 3
channels and values in [0, 1]; the image whose bytes are scaled is the
RGB-converted (for non-RGB inputs) resized image, i.e. conversion to RGB
happens before the scaling to [0, 1]. -/
theorem C7_preprocess_image_contract (img : PILImage) :
    (preprocess_image img).height = 512 ∧
    (preprocess_image img).width = 512 ∧
    (preprocess_image img).channels = 3 ∧
    (∀ y x c, 0 ≤ (preprocess_image img).value y x c ∧
      (preprocess_image img).value y x c ≤ 1) ∧
    (preprocessRGBStage img).mode = ImageMode.RGB ∧
    (∀ y x c, (preprocess_image img).value y x c
      = (((preprocessRGBStage img).pixel x y c : Nat) : ℚ) / 255) := by
  have hmode : (preprocessRGBStage img).mode = ImageMode.RGB := by
    by_cases hm : (img.resize IMG_WIDTH IMG_HEIGHT).mode = ImageMode.RGB
    · simp [preprocessRGBStage, hm]
    · simp [preprocessRGBStage, hm, PILImage.convertRGB]
  have hdims : (preprocessRGBStage img).height = 512 ∧ (preprocessRGBStage img).width = 512 := by
    constructor <;>
      (unfold preprocessRGBStage
       simp only [PILImage.resize, PILImage.convertRGB, IMG_WIDTH, IMG_HEIGHT]
       split <;> rfl)
  refine ⟨?_, ?_, ?_, ?_, hmode, ?_⟩
  · simp [preprocess_image, hdims.1]
  · simp [preprocess_image, hdims.2]
  · simp [preprocess_image, hmode, ImageMode.numChannels]
  · intro y x c
    have hv : (preprocess_image img).value y x c
        = (((preprocessRGBStage img).pixel x y c : Nat) : ℚ) / 255 := rfl
    rw [hv]
    constructor
    · exact div_nonneg (by positivity) (by norm_num)
    · rw [div_le_one (by norm_num)]
      have hb : ((preprocessRGBStage img).pixel x y c : Nat) ≤ 255 :=
        Nat.lt_succ_iff.mp ((preprocessRGBStage img).pixel x y c).isLt
      exact_mod_cast hb
  · intro y x c
    rfl

/-- Flask-SQLAlchemy's `has_next` test against the ceiling page count is
exactly "records exist beyond the current page". -/
theorem lt_ceilPages_iff (page total per_page : Nat) (hpp : 1 ≤ per_page) :
    page < (total + per_page - 1) / per_page ↔ page * per_page < total := by
  rw [Nat.lt_iff_add_one_le, Nat.le_div_iff_mul_le (Nat.lt_of_lt_of_le Nat.zero_lt_one hpp)]
  have hexp : (page + 1) * per_page = page * per_page + per_page := by ring
  rw [hexp]
  generalize page * per_page = A
  omega

/-- C8: for every history-list request with positive `page` and `per_page`,
the effective page size never exceeds 50 (a requested `per_page` of 100 is
clamped to 50), the returned records are ordered by creation time
descending, `has_prev` holds iff `page > 1`, and `has_next` holds iff
records exist beyond the current page. -/
theorem C8_history_pagination_contract (db : List SunflowerAnalysis)
    (uid page per_page : Nat) (_hpage : 1 ≤ page) (hpp : 1 ≤ per_page) :
    HistorySpec db uid page per_page := by
  refine ⟨?_, ?_, ?_, ?_, ?_⟩
  · -- effective page size never exceeds 50
    simp only [get_prediction_history]
    exact min_le_right _ _
  · -- per_page = 100 is clamped to 50
    intro h100
    simp [get_prediction_history, h100]
  · -- records ordered by creation time descending
    simp only [get_prediction_history]
    have hsorted :
        List.Sorted createdDesc
          (List.insertionSort createdDesc (db.filter (fun a => a.user_id = uid))) :=
      List.sorted_insertionSort createdDesc _
    exact hsorted.sublist
      (List.Sublist.trans (List.take_sublist _ _) (List.drop_sublist _ _))
  · -- has_prev iff page > 1
    simp [get_prediction_history]
  · -- has_next iff records exist beyond the current page
    simp only [get_prediction_history, decide_eq_true_eq]
    exact lt_ceilPages_iff page _ _ (le_min hpp (by norm_num))

/-- Witness for C8 at a concrete database and the spec's `per_page = 100`
request. -/
theorem C8_history_pagination_witness :
    1 ≤ 2 ∧ 1 ≤ 100 ∧
    HistorySpec
      [⟨1, 7, "GrayMold", 1/2, some "u1", 10⟩, ⟨2, 7, "Fresh Leaf", 3/4, none, 20⟩,
       ⟨3, 8, "GrayMold", 1/4, none, 15⟩]
      7 2 100 :=
  ⟨by omega, by omega,
   C8_history_pagination_contract _ 7 2 100 (by omega) (by omega)⟩

/-- C9: the single-analysis endpoint returns a record only when it belongs
to the requesting user, and when every record carrying the requested id
belongs to a different user (in particular when no record carries the id at
all) it returns the very same not-found outcome, so a user can never
retrieve another user's record. -/
theorem C9_single_analysis_owner_scoped (db : List SunflowerAnalysis)
    (uid analysis_id : Nat) :
    (∀ r, get_single_analysis db uid analysis_id = .ok r →
      r.user_id = uid ∧ r.id = analysis_id ∧ r ∈ db) ∧
    ((∀ r ∈ db, r.id = analysis_id → r.user_id ≠ uid) →
      get_single_analysis db uid analysis_id
        = .err 404 "Analysis not found or access denied") := by
  constructor
  · intro r hr
    unfold get_single_analysis at hr
    cases hfind : db.find? (fun a => a.id = analysis_id && a.user_id = uid) with
    | none => rw [hfind] at hr; exact absurd hr (by simp)
    | some a =>
      rw [hfind] at hr
      have ha : r = a := by
        have := hr
        simp at this
        exact this.symm
      subst ha
      have hp := List.find?_some hfind
      simp at hp
      exact ⟨hp.2, hp.1, List.mem_of_find?_eq_some hfind⟩
  · intro hothers
    unfold get_single_analysis
    have hnone : db.find? (fun a => a.id = analysis_id && a.user_id = uid) = none := by
      rw [List.find?_eq_none]
      intro a ha
      simp only [Bool.and_eq_true, decide_eq_true_eq, not_and]
      intro hid
      exact hothers a ha hid
    rw [hnone]

/-- Witness for C9: a database holding the requested id under a different
owner yields the not-found outcome. -/
theorem C9_single_analysis_witness :
    (∀ r ∈ ([⟨1, 7, "GrayMold", 1/2, none, 10⟩] : List SunflowerAnalysis),
      r.id = 1 → r.user_id ≠ 8) ∧
    get_single_analysis [⟨1, 7, "GrayMold", 1/2, none, 10⟩] 8 1
      = .err 404 "Analysis not found or access denied" :=
  ⟨by decide,
   (C9_single_analysis_owner_scoped [⟨1, 7, "GrayMold", 1/2, none, 10⟩] 8 1).2 (by decide)⟩

/-- C1 counterexample: when the Cloudinary upload fails (the client's
`except` absorbs the error and hands back a null URL) and inference
succeeds, the predict endpoint still commits a `SunflowerAnalysis` record —
with `original_image_url = None` — and returns 200.  This refutes the claim
that no record is ever persisted whose upload did not succeed. -/
theorem C1_record_committed_despite_failed_upload :
    (predictEndpoint ⟨false, "", true, [1, 0, 0, 0]⟩ [] 7 1 0).1
      = [⟨1, 7, "DownyMildew", 1, none, 0⟩] ∧
    (predictEndpoint ⟨false, "", true, [1, 0, 0, 0]⟩ [] 7 1 0).2 = 200 := by
  constructor <;> rfl

/-- C1 (amended): a `SunflowerAnalysis` record is committed iff the
inference succeeded; a failed upload does not prevent persistence — the
record is committed anyway, with a null `original_image_url` exactly when
the upload failed. -/
theorem C1_commit_iff_inference_succeeded (env : PredictEnv)
    (db : List SunflowerAnalysis) (uid nextId ts : Nat) :
    (env.inferOk = false → predictEndpoint env db uid nextId ts = (db, 500)) ∧
    (env.inferOk = true →
      (predictEndpoint env db uid nextId ts).1
        = db ++ [⟨nextId, uid, (predict_disease env.probs).predicted_class,
                  (predict_disease env.probs).confidence,
                  upload_sunflower_analysis_image env, ts⟩] ∧
      (predictEndpoint env db uid nextId ts).2 = 200 ∧
      (upload_sunflower_analysis_image env = none ↔ env.uploadOk = false)) := by
  constructor
  · intro hinf
    simp [predictEndpoint, hinf]
  · intro hinf
    refine ⟨by simp [predictEndpoint, hinf], by simp [predictEndpoint, hinf], ?_⟩
    unfold upload_sunflower_analysis_image upload_image
    cases hup : env.uploadOk <;> simp [hup]

/-- Witness for the amended C1 at a concrete request whose upload fails and
whose inference succeeds. -/
theorem C1_commit_iff_inference_witness :
    ((PredictEnv.mk false "" true [1, 0, 0, 0]).inferOk = false →
      predictEndpoint ⟨false, "", true, [1, 0, 0, 0]⟩ [] 7 1 0 = ([], 500)) ∧
    ((PredictEnv.mk false "" true [1, 0, 0, 0]).inferOk = true →
      (predictEndpoint ⟨false, "", true, [1, 0, 0, 0]⟩ [] 7 1 0).1
        = [] ++ [⟨1, 7, (predict_disease [1, 0, 0, 0]).predicted_class,
                  (predict_disease [1, 0, 0, 0]).confidence,
                  upload_sunflower_analysis_image ⟨false, "", true, [1, 0, 0, 0]⟩, 0⟩] ∧
      (predictEndpoint ⟨false, "", true, [1, 0, 0, 0]⟩ [] 7 1 0).2 = 200 ∧
      (upload_sunflower_analysis_image ⟨false, "", true, [1, 0, 0, 0]⟩ = none ↔
        (PredictEnv.mk false "" true [1, 0, 0, 0]).uploadOk = false)) :=
  C1_commit_iff_inference_succeeded ⟨false, "", true, [1, 0, 0, 0]⟩ [] 7 1 0

/-- C3 counterexample: `get_model` has no lock, only a bare
`if _model is None: _model = load(); return _model`.  Under the interleaving
in which both first-time callers pass the `None` check before either loads,
two full load sequences execute and the two callers return two distinct
instances — refuting the claim that initialization is guarded by mutual
exclusion so that exactly one load sequence executes and all callers receive
the same instance. -/
theorem C3_two_loads_under_concurrent_first_calls :
    (twoCallersRun [false, true, false, false, false, true, true, true]).shared.loads = 2 ∧
    (twoCallersRun [false, true, false, false, false, true, true, true]).pc0
      = .ret 0 ∧
    (twoCallersRun [false, true, false, false, false, true, true, true]).pc1
      = .ret 1 := by
  refine ⟨rfl, rfl, rfl⟩

/-- C3 (amended): initialization is an unguarded check-then-act, so
concurrent first callers may each execute a load sequence and may receive
distinct instances (see the counterexample); what does hold is the cached
fast path: once `_model` holds an instance, a caller's check performs no
load (the shared state, including the load counter, is untouched) and the
caller returns the cached instance. -/
theorem C3_cached_instance_returned_without_reload
    (s : GetModelState) (m : Nat) (h : s.cached = some m) :
    getModelStep s .check = (s, .readReturn) ∧
    getModelStep s .readReturn = (s, .ret m) := by
  constructor
  · simp [getModelStep, h]
  · simp [getModelStep, h]

/-- Witness for the amended C3 at a concrete initialized state. -/
theorem C3_cached_instance_witness :
    (GetModelState.mk (some 5) 1 6).cached = some 5 ∧
    (getModelStep (GetModelState.mk (some 5) 1 6) .check
        = (GetModelState.mk (some 5) 1 6, .readReturn) ∧
     getModelStep (GetModelState.mk (some 5) 1 6) .readReturn
        = (GetModelState.mk (some 5) 1 6, .ret 5)) :=
  ⟨rfl, C3_cached_instance_returned_without_reload (GetModelState.mk (some 5) 1 6) 5 rfl⟩

/-- Lowercasing one character is idempotent. -/
theorem pyLowerChar_idem (b : Nat) : pyLowerChar (pyLowerChar b) = pyLowerChar b := by
  unfold pyLowerChar
  split <;> (try split) <;> omega

/-- Lowercasing does not change whether a character is whitespace. -/
theorem isPySpace_pyLowerChar (b : Nat) : isPySpace (pyLowerChar b) = isPySpace b := by
  unfold pyLowerChar isPySpace
  split
  · rw [decide_eq_decide]
    omega
  · rfl

/-- `str.lower` is idempotent. -/
theorem pyLower_idem (s : PyStr) : pyLower (pyLower s) = pyLower s := by
  induction s with
  | nil => rfl
  | cons b t ih => simp_all [pyLower, pyLowerChar_idem]

/-- Dropping a prefix satisfying `p` twice equals dropping it once. -/
theorem dropWhile_dropWhile {α : Type} (p : α → Bool) (l : List α) :
    List.dropWhile p (List.dropWhile p l) = List.dropWhile p l := by
  induction l with
  | nil => rfl
  | cons x t ih =>
    by_cases hx : p x
    · simp [List.dropWhile_cons, hx, ih]
    · simp [List.dropWhile_cons, hx]

/-- The head of a `dropWhile p` result fails `p`. -/
theorem head_dropWhile_false {α : Type} (p : α → Bool) :
    ∀ (l : List α) (x : α) (xs : List α), List.dropWhile p l = x :: xs → p x = false := by
  intro l
  induction l with
  | nil => intro x xs h; exact absurd h (by simp)
  | cons a t ih =>
    intro x xs h
    by_cases ha : p a
    · rw [List.dropWhile_cons, if_pos ha] at h
      exact ih x xs h
    · rw [List.dropWhile_cons, if_neg ha] at h
      cases h
      exact Bool.of_not_eq_true ha

/-- `str.strip` commutes with `str.lower`. -/
theorem pyStrip_pyLower_comm (s : PyStr) : pyStrip (pyLower s) = pyLower (pyStrip s) := by
  have hp : (isPySpace ∘ pyLowerChar) = isPySpace := funext isPySpace_pyLowerChar
  unfold pyStrip pyLower
  rw [List.dropWhile_map, hp, ← List.map_reverse, List.dropWhile_map, hp, ← List.map_reverse]

/-- `str.strip` is idempotent. -/
theorem pyStrip_idem (s : PyStr) : pyStrip (pyStrip s) = pyStrip s := by
  have hB : List.dropWhile isPySpace (pyStrip s) = pyStrip s := by
    cases hBe : pyStrip s with
    | nil => simp
    | cons x xs =>
      have hpre : List.IsPrefix (pyStrip s) (List.dropWhile isPySpace s) := by
        have hsuf : List.IsSuffix
            (List.dropWhile isPySpace (List.dropWhile isPySpace s).reverse)
            (List.dropWhile isPySpace s).reverse := List.dropWhile_suffix _
        have := hsuf.reverse
        rw [List.reverse_reverse] at this
        exact this
      rw [hBe] at hpre
      obtain ⟨t, ht⟩ := hpre
      have hx : isPySpace x = false := by
        apply head_dropWhile_false isPySpace s x (xs ++ t)
        rw [← ht]
        rfl
      rw [List.dropWhile_cons, if_neg (by simp [hx])]
  unfold pyStrip
  conv_lhs => rw [show List.dropWhile isPySpace
    (((s.dropWhile isPySpace).reverse.dropWhile isPySpace).reverse)
      = ((s.dropWhile isPySpace).reverse.dropWhile isPySpace).reverse from hB]
  rw [List.reverse_reverse, dropWhile_dropWhile]

/-- C10: email identity at the register/login interface is case- and
surrounding-whitespace-insensitive: a successful registration stores the
submitted email lowercased and stripped; login then succeeds with any case
variant of the stored email (same password); and a second, otherwise-valid
registration whose email differs from the first only in letter case is
rejected as a duplicate. -/
theorem C10_email_case_and_whitespace_insensitive
    (db : List UserRow) (nextId : Nat) (username email password : PyStr)
    (age : Option Int) (db2 : List UserRow) (u : UserRow)
    (hreg : register db nextId username email password age = (db2, .created u)) :
    u.email = pyLower (pyStrip email) ∧
    (∀ v : PyStr, pyLower v = pyLower u.email → login db2 v password = .success u) ∧
    (∀ (nextId2 : Nat) (username2 email2 password2 : PyStr) (age2 : Option Int),
      pyLower email2 = pyLower email → pyStrip username2 ≠ [] →
      6 ≤ password2.length → ageTruthy age2 = true →
      register db2 nextId2 username2 email2 password2 age2
        = (db2, .err 400 "Email already exists")) := by
  simp only [register] at hreg
  split_ifs at hreg with h1 h2 h3 h4
  · simp at hreg
  · simp at hreg
  · simp at hreg
  · simp at hreg
  simp only [Prod.mk.injEq] at hreg
  obtain ⟨hdb2, hu⟩ := hreg
  simp only [RegisterOutcome.created.injEq] at hu
  subst hdb2
  subst hu
  push_neg at h1
  obtain ⟨hun_ne, hE_ne, hpw_ne, hage⟩ := h1
  have hfind_none : db.find? (fun w => w.email == pyLower (pyStrip email)) = none := by
    cases hfind : db.find? (fun w => w.email == pyLower (pyStrip email)) with
    | none => rfl
    | some w => rw [hfind] at h3; simp at h3
  have hstripE : pyStrip (pyLower (pyStrip email)) = pyLower (pyStrip email) := by
    rw [pyStrip_pyLower_comm, pyStrip_idem]
  have hlowE : pyLower (pyLower (pyStrip email)) = pyLower (pyStrip email) :=
    pyLower_idem (pyStrip email)
  refine ⟨rfl, ?_, ?_⟩
  · -- login succeeds with any case variant of the stored email
    intro v hv
    have hv' : pyLower v = pyLower (pyStrip email) := by
      simpa [hlowE] using hv
    have hnorm : pyLower (pyStrip v) = pyLower (pyStrip email) := by
      rw [← pyStrip_pyLower_comm, hv', hstripE]
    simp only [login, hnorm]
    rw [if_neg (by push_neg; exact ⟨hE_ne, hpw_ne⟩)]
    rw [List.find?_append, hfind_none]
    simp [UserRow.check_password]
  · -- a second registration differing only in case is rejected as duplicate
    intro nid2 un2 e2 pw2 ag2 hcase hun2 hlen hag
    have hnorm2 : pyLower (pyStrip e2) = pyLower (pyStrip email) := by
      rw [← pyStrip_pyLower_comm, hcase, pyStrip_pyLower_comm]
    simp only [register, hnorm2]
    rw [if_neg (by
      push_neg
      refine ⟨hun2, hE_ne, ?_, by simp [hag]⟩
      intro hnil
      rw [hnil] at hlen
      simp at hlen)]
    rw [if_neg (by omega)]
    rw [if_pos (by
      rw [List.find?_append, hfind_none]
      simp)]

/-- Witness for C10: register " ALICE@X.COM " (with surrounding whitespace
and upper case), then check the stored email, a lowercase-variant login, and
a duplicate registration differing only in case. -/
theorem C10_email_case_witness :
    register [] 1 [97, 108] [32, 65, 76, 73, 67, 69, 64, 88, 46, 67, 79, 77, 32]
        [112, 119, 49, 50, 51, 54] (some 25)
      = ([⟨1, [97, 108], [97, 108, 105, 99, 101, 64, 120, 46, 99, 111, 109],
           [112, 119, 49, 50, 51, 54], 25⟩],
         .created ⟨1, [97, 108], [97, 108, 105, 99, 101, 64, 120, 46, 99, 111, 109],
           [112, 119, 49, 50, 51, 54], 25⟩) ∧
    ((⟨1, [97, 108], [97, 108, 105, 99, 101, 64, 120, 46, 99, 111, 109],
        [112, 119, 49, 50, 51, 54], 25⟩ : UserRow).email
      = pyLower (pyStrip [32, 65, 76, 73, 67, 69, 64, 88, 46, 67, 79, 77, 32]) ∧
     (∀ v : PyStr,
        pyLower v
          = pyLower (UserRow.email ⟨1, [97, 108],
              [97, 108, 105, 99, 101, 64, 120, 46, 99, 111, 109],
              [112, 119, 49, 50, 51, 54], 25⟩) →
        login [⟨1, [97, 108], [97, 108, 105, 99, 101, 64, 120, 46, 99, 111, 109],
            [112, 119, 49, 50, 51, 54], 25⟩] v [112, 119, 49, 50, 51, 54]
          = .success ⟨1, [97, 108], [97, 108, 105, 99, 101, 64, 120, 46, 99, 111, 109],
              [112, 119, 49, 50, 51, 54], 25⟩) ∧
     (∀ (nextId2 : Nat) (username2 email2 password2 : PyStr) (age2 : Option Int),
        pyLower email2 = pyLower [32, 65, 76, 73, 67, 69, 64, 88, 46, 67, 79, 77, 32] →
        pyStrip username2 ≠ [] →
        6 ≤ password2.length → ageTruthy age2 = true →
        register [⟨1, [97, 108], [97, 108, 105, 99, 101, 64, 120, 46, 99, 111, 109],
            [112, 119, 49, 50, 51, 54], 25⟩] nextId2 username2 email2 password2 age2
          = ([⟨1, [97, 108], [97, 108, 105, 99, 101, 64, 120, 46, 99, 111, 109],
               [112, 119, 49, 50, 51, 54], 25⟩], .err 400 "Email already exists"))) :=
  ⟨by decide,
   C10_email_case_and_whitespace_insensitive [] 1 [97, 108]
     [32, 65, 76, 73, 67, 69, 64, 88, 46, 67, 79, 77, 32]
     [112, 119, 49, 50, 51, 54] (some 25) _ _ (by decide)⟩

end Sunflower
